import Mathlib

/-!
Verification of the CANopen CiA 402 / LSS helper layer of the XLA-INTG
example programs (`examples/common/utils.py`, `src/utils.py`,
`examples/mode_profile_position.py`, `examples/mode_pp_set_of_set_points.py`).

The Python functions are shallowly embedded: the environment (statusword
reads, reported node states, LSS primitive outcomes) is passed in
explicitly, time is counted in the loop's own poll units on a monotonic
clock, and each sequencer returns the list of bus-visible actions it
performs (its trace) together with its result.  Exceptions are embedded as
`Except` values; the data each Python exception message interpolates is
kept in the constructor's fields.
-/

/-- Source: `BIT = lambda n: 1 << n` (`examples/common/utils.py`). -/
def BIT (n : Nat) : Nat := 1 <<< n

/-- CiA 402 power states, from `NodeState` in `examples/common/parameters.py`. -/
inductive NodeState
  | SWITCH_ON_DISABLED
  | DISABLE_VOLTAGE
  | READY_TO_SWITCH_ON
  | SWITCH_ON
  | OPERATION_ENABLED
  | QUICK_STOP
deriving DecidableEq

/-- Operation modes, from `NodeOperationMode` in `examples/common/parameters.py`. -/
inductive NodeOperationMode
  | HOMING
  | PROFILE_POSITION
  | OFF
  | HYBRID
  | OPEN_LOOP
  | VELOCITY
  | BUS
  | TEST_1
deriving DecidableEq

/-- The raw value written to the mode-select register (`mode.value`); the
positive values are the CiA 402 codes the `canopen` library's
`OperationMode` resolves to, the negative ones are set directly in
`parameters.py`. No claim depends on these numbers, only on the round trip
being value-faithful. -/
def NodeOperationMode.val : NodeOperationMode → Int
  | .HOMING => 6
  | .PROFILE_POSITION => 1
  | .OFF => 0
  | .HYBRID => -1
  | .OPEN_LOOP => -2
  | .VELOCITY => -3
  | .BUS => -5
  | .TEST_1 => -6

/-- SDO-addressed registers the embedded sequencers touch. -/
inductive Reg
  | modeOfOperation      -- 0x6060 "Mode of operation"
  | homeOffset           -- 0x607C "Home offset"
  | homingMethod         -- 0x6098 "Homing method"
  | positionWindow       -- "Position window"
  | positionWindowTime   -- "Position window time"
  | positionActualValue  -- 0x6064 "Position Actual Value"
deriving DecidableEq

/-- NMT commands the embedded code issues. -/
inductive NMTCmd
  | reset                -- "RESET"
  | resetCommunication   -- "RESET COMMUNICATION"
deriving DecidableEq

/-- Embedded Python exceptions.  Each constructor's fields are the data the
corresponding exception message interpolates; `runtimeHomingFailed` embeds
`RuntimeError("Homing failed")`, whose message is a constant and therefore
has no fields. -/
inductive PyErr
  | timeoutFlags (nodeId flags : Nat) (expected_set : Bool)
      -- TimeoutError of wait_for_statusword_flags
  | timeoutState (nodeId : Nat) (target : NodeState)
      -- TimeoutError of set_node_state
  | timeoutMode (nodeId : Nat) (mode : NodeOperationMode)
      -- TimeoutError of set_node_operation_mode
  | runtimeHomingFailed
      -- RuntimeError("Homing failed") of homing
  | lssError
      -- canopen.lss.LssError from an LSS primitive
  | otherError
      -- any other exception from a collaborator
deriving DecidableEq

/-- The node id an embedded exception's message names, if any: the messages
of the three `TimeoutError`s are built from `node.id`, the message of
`RuntimeError("Homing failed")` and of the collaborator errors names none. -/
def PyErr.errNode : PyErr → Option Nat
  | .timeoutFlags n _ _ => some n
  | .timeoutState n _ => some n
  | .timeoutMode n _ => some n
  | .runtimeHomingFailed => none
  | .lssError => none
  | .otherError => none

/-- Whether an embedded exception is a `canopen.lss.LssError` (the class the
`except LssError` handlers catch). -/
def PyErr.isLss : PyErr → Bool
  | .lssError => true
  | _ => false

/-- One bus-visible action of a sequencer.  `cwWrite` is a
`set_controlword` call (RPDO controlword write + transmit), `stateWrite`
a `node.state = token` assignment (the `canopen` collaborator resolves the
token to controlword traffic), `setMode` a `set_node_operation_mode`
sub-call, `lssSwitchGlobal true` a switch to the LSS waiting state and
`lssSwitchGlobal false` a switch to the configuration state. -/
inductive Ev
  | cwWrite (v : Nat)
  | setTarget (pos vel : Option Int)
  | waitFlags (flags : Nat) (expected_set : Bool)
  | sdoWrite (r : Reg) (v : Int)
  | sdoRead (r : Reg)
  | sdoReadIdentity
  | stateWrite (s : NodeState)
  | setMode (m : NodeOperationMode)
  | sleep
  | getActualPos
  | lssSwitchGlobal (waiting : Bool)
  | lssSwitchSelective (vid pid rev ser : Nat)
  | lssInquireNodeId
  | lssConfigureNodeId (id : Nat)
  | lssStoreConfiguration
  | lssFastScan
  | nmt (c : NMTCmd)
deriving DecidableEq

/-- The controlword values a trace writes, in order. -/
def cwWrites (tr : List Ev) : List Nat :=
  tr.filterMap fun e => match e with
    | .cwWrite v => some v
    | _ => none

/-- The SDO writes a trace performs, in order. -/
def sdoWritesOf (tr : List Ev) : List (Reg × Int) :=
  tr.filterMap fun e => match e with
    | .sdoWrite r v => some (r, v)
    | _ => none

/-- The registers a trace's SDO reads target, in order. -/
def sdoReadsOf (tr : List Ev) : List Reg :=
  tr.filterMap fun e => match e with
    | .sdoRead r => some r
    | _ => none

/-- How many `configure_node_id` calls a trace performs. -/
def configureCount (tr : List Ev) : Nat :=
  tr.countP fun e => match e with
    | .lssConfigureNodeId _ => true
    | _ => false

/-- How many `store_configuration` calls a trace performs. -/
def storeCount (tr : List Ev) : Nat :=
  tr.countP fun e => match e with
    | .lssStoreConfiguration => true
    | _ => false

/-- Source (`examples/common/utils.py:233`): the loop body's predicate
`flag_match = lambda sw: (sw & flags) == flags if expected_flag_state
else (sw & flags) == 0`. -/
def flag_match (flags : Nat) (expected_flag_state : Bool) (sw : Nat) : Bool :=
  if expected_flag_state then (sw &&& flags) == flags else (sw &&& flags) == 0

/-- The polling loop of `wait_for_statusword_flags`
(`examples/common/utils.py:235`, identical in `src/utils.py:220`).
`reads` are the statusword values `get_statusword` returns, in order; the
monotonic clock starts at `elapsed` and each `time.sleep(time_interval)`
advances it by `time_interval`; `count` counts reads performed so far.
`.ok k` is a normal return after `k` reads, `.error` is the raised
`TimeoutError` (also used when the environment supplies no further read,
which a physical device never does). -/
def wfsfGo (nodeId flags : Nat) (expected_flag_state : Bool)
    (time_interval timeout : Nat) :
    List Nat → Nat → Nat → Except PyErr Nat
  | [], _, _ => .error (.timeoutFlags nodeId flags expected_flag_state)
  | sw :: rest, elapsed, count =>
    if elapsed < timeout then
      if flag_match flags expected_flag_state sw then .ok (count + 1)
      else wfsfGo nodeId flags expected_flag_state time_interval timeout
        rest (elapsed + time_interval) (count + 1)
    else .error (.timeoutFlags nodeId flags expected_flag_state)

/-- `wait_for_statusword_flags(node, flags, expected_flag_state,
time_interval, timeout)` (`examples/common/utils.py:210`): poll the
statusword until `flag_match` holds or `timeout` elapses. -/
def wait_for_statusword_flags (nodeId : Nat) (reads : List Nat) (flags : Nat)
    (expected_flag_state : Bool) (time_interval timeout : Nat) :
    Except PyErr Nat :=
  wfsfGo nodeId flags expected_flag_state time_interval timeout reads 0 0

/-- The outgoing-PDO state of a node: the last raw values written to the
mapped RPDO variables, and the log of RPDO transmits (by PDO number). -/
structure RpdoState where
  controlword : Int
  target_position : Int
  profile_velocity : Int
  transmits : List Nat
deriving DecidableEq

/-- `set_controlword(node, controlword=None)`
(`examples/common/utils.py:257`): when `controlword` is not `None`, write
`rpdo[1]["Controlword"].raw` and transmit RPDO 1; otherwise do nothing. -/
def set_controlword (s : RpdoState) (controlword : Option Int) : RpdoState :=
  match controlword with
  | some cw => { s with controlword := cw, transmits := s.transmits ++ [1] }
  | none => s

/-- `set_target_position(node, target_position=None, profile_velocity=None)`
(`examples/common/utils.py:313`): write whichever of the two RPDO-3 values
is not `None`, and transmit RPDO 3 when at least one was written. -/
def set_target_position (s : RpdoState)
    (target_position profile_velocity : Option Int) : RpdoState :=
  let s1 := match target_position with
    | some tp => { s with target_position := tp }
    | none => s
  let s2 := match profile_velocity with
    | some pv => { s1 with profile_velocity := pv }
    | none => s1
  if target_position.isSome || profile_velocity.isSome then
    { s2 with transmits := s2.transmits ++ [3] }
  else s2

/-- The polling loop of `set_node_state` (`examples/common/utils.py:168`).
`reads` are the successive values the `node.state` getter reports (the
CiA 402 state the `canopen` collaborator derives from the statusword);
time is counted in poll intervals (one unit = the loop's `time.sleep(0.1)`),
so `timeout` is the timeout in 100 ms units. -/
def snsGo (nodeId : Nat) (target : NodeState) (timeout : Nat) :
    List NodeState → Nat → Except PyErr Unit
  | [], _ => .error (.timeoutState nodeId target)
  | s :: rest, elapsed =>
    if elapsed < timeout then
      if s = target then .ok ()
      else snsGo nodeId target timeout rest (elapsed + 1)
    else .error (.timeoutState nodeId target)

/-- `set_node_state(node, state, timeout)` (`examples/common/utils.py:147`):
assign `node.state = state.value` (the collaborator turns the token into
controlword traffic), then poll the reported state until it equals the
requested one or the timeout elapses; on timeout raise
`TimeoutError(f"Node {node.id}: Timeout while changing node state ...")`. -/
def set_node_state (nodeId : Nat) (target : NodeState)
    (reads : List NodeState) (timeout : Nat) : Except PyErr Unit :=
  snsGo nodeId target timeout reads 0

/-- The polling loop of `set_node_operation_mode`
(`examples/common/utils.py:196`).  `reads` are the successive raw values
the polled SDO reads of `"Mode of operation"` (0x6060, the mode-select
register) return; one time unit = the loop's `time.sleep(0.1)`.  The trace
records each SDO read performed. -/
def snomGo (nodeId : Nat) (mode : NodeOperationMode) (timeout : Nat) :
    List Int → Nat → List Ev × Except PyErr Unit
  | [], _ => ([], .error (.timeoutMode nodeId mode))
  | v :: rest, elapsed =>
    if elapsed < timeout then
      if v = mode.val then ([Ev.sdoRead .modeOfOperation], .ok ())
      else
        (Ev.sdoRead .modeOfOperation
            :: (snomGo nodeId mode timeout rest (elapsed + 1)).1,
         (snomGo nodeId mode timeout rest (elapsed + 1)).2)
    else ([], .error (.timeoutMode nodeId mode))

/-- `set_node_operation_mode(node, mode, timeout)`
(`examples/common/utils.py:179`): one SDO write of `mode.value` to
`"Mode of operation"` (0x6060), then poll that same register every 100 ms
until it echoes the value or the timeout elapses; on timeout raise
`TimeoutError(f"Node {node.id}: Failed to confirm control mode ...")`. -/
def set_node_operation_mode (nodeId : Nat) (mode : NodeOperationMode)
    (reads : List Int) (timeout : Nat) : List Ev × Except PyErr Unit :=
  let (tr, r) := snomGo nodeId mode timeout reads 0
  (Ev.sdoWrite .modeOfOperation mode.val :: tr, r)

/-- `homing(node, direction_positive=True, offset=None)`
(`examples/common/utils.py:351`), as the trace of actions it performs and
its outcome.  The leading `set_node_state` / `set_node_operation_mode`
sub-calls appear as `stateWrite` / `setMode` actions and are modelled as
succeeding (if one of them raised, its error would propagate before bit 4
of the controlword was ever set); the branch of interest is the
`wait_for_statusword_flags(node, BIT(12))` call, whose outcome is the
parameter `homingWaitOk`.  The homing method raw values 34 / 33 are
`HomingMethod.POS_INDEX` / `NEG_INDEX` from `parameters.py`. -/
def homing (nodeId : Nat) (direction_positive : Bool) (offset : Option Int)
    (homingWaitOk : Bool) : List Ev × Except PyErr Unit :=
  let method : Int := if direction_positive then 34 else 33
  let pre : List Ev :=
    [Ev.stateWrite .SWITCH_ON_DISABLED,
     Ev.stateWrite .READY_TO_SWITCH_ON,
     Ev.stateWrite .SWITCH_ON,
     Ev.setMode .HOMING]
    ++ (match offset with
        | some o => [Ev.sdoWrite .homeOffset o]
        | none => [])
    ++ [Ev.sdoWrite .homingMethod method,
        Ev.stateWrite .OPERATION_ENABLED,
        Ev.cwWrite (0x0F ||| BIT 4),
        Ev.sleep,
        Ev.waitFlags (BIT 12) true]
  if homingWaitOk then
    (pre ++ [Ev.cwWrite 0x0F, Ev.stateWrite .SWITCH_ON], .ok ())
  else
    (pre ++ [Ev.cwWrite 0x0F], .error .runtimeHomingFailed)

/-- Python's `cw & ~m` on a non-negative `cw`: clear in `cw` every bit set
in `m`.  On `Nat` this is `cw ^^^ (cw &&& m)` (see `pyClearBits_eq_ldiff`). -/
def pyClearBits (cw m : Nat) : Nat := cw ^^^ (cw &&& m)

/-- `send_position_command(node, target_pos)`
(`examples/mode_profile_position.py:100`), as its trace of actions with
every wait succeeding.  Python's `cw & ~BIT(4)` is `pyClearBits cw (BIT 4)`. -/
def send_position_command (target_pos : Int) : List Ev :=
  [Ev.cwWrite 0x0F,
   Ev.setTarget (some target_pos) none,
   Ev.cwWrite (0x0F ||| BIT 4),
   Ev.waitFlags (BIT 12) true,
   Ev.cwWrite (pyClearBits 0x0F (BIT 4)),
   Ev.waitFlags (BIT 10) true,
   Ev.getActualPos]

/-- `setup_profile_position(node)` (`examples/mode_pp_set_of_set_points.py:38`)
as its trace of actions. -/
def setup_profile_position : List Ev :=
  [Ev.stateWrite .SWITCH_ON_DISABLED,
   Ev.stateWrite .READY_TO_SWITCH_ON,
   Ev.stateWrite .SWITCH_ON,
   Ev.setMode .PROFILE_POSITION,
   Ev.sdoWrite .positionWindow 5,
   Ev.sdoWrite .positionWindowTime 50,
   Ev.stateWrite .OPERATION_ENABLED,
   Ev.sleep]

/-- `cleanup_profile_position(node)`
(`examples/mode_pp_set_of_set_points.py:69`) as its trace of actions. -/
def cleanup_profile_position : List Ev :=
  [Ev.stateWrite .SWITCH_ON,
   Ev.stateWrite .READY_TO_SWITCH_ON]

/-- `position_mode_normal(node)` (`examples/mode_pp_set_of_set_points.py:86`)
as its trace of actions with every wait succeeding.  The source fixes
`target_position = 10000` and `target_velocity = 50 * INC_PER_MM`; they are
parameters here because no verified property depends on their values. -/
def position_mode_normal (target_position target_velocity : Int) : List Ev :=
  setup_profile_position
  ++ [Ev.cwWrite 0x0F,
      Ev.setTarget (some target_position) (some target_velocity),
      Ev.cwWrite (0x0F ||| BIT 4),
      Ev.waitFlags (BIT 12) true,
      Ev.cwWrite (pyClearBits 0x0F (BIT 4)),
      Ev.waitFlags (BIT 12) false,
      Ev.waitFlags (BIT 10) true,
      Ev.sdoRead .positionActualValue]
  ++ cleanup_profile_position

/-- An LSS fast-scan identity tuple / configured-device record, after
`lss_scan_and_configure_nodes` (`examples/common/utils.py:518`): the four
identity fields of the `device` dict. -/
structure DeviceInfo where
  vendor_id : Nat
  product_code : Nat
  revision : Nat
  serial_number : Nat
deriving DecidableEq

/-- The `device` dict appended to `configured_devices`
(`examples/common/utils.py:520`): identity fields plus
`assigned_node_id`. -/
structure ConfiguredDevice where
  device : DeviceInfo
  assigned_node_id : Nat
deriving DecidableEq

/-- The loop of `lss_scan_and_configure_nodes(network, first_node_id)`
(`examples/common/utils.py:491`).  `scans` is the sequence of
`network.lss.fast_scan()` results the bus supplies: `some d` for
`(True, device_info)`, `none` for `(False, _)`, which breaks the loop.
The `configure_node_id` / `store_configuration` calls are modelled as
succeeding (the source's `except` only breaks the loop early).  The empty
`scans` case never arises on a bus, where `fast_scan` always returns. -/
def lss_scan_and_configure_nodes :
    List (Option DeviceInfo) → Nat → List ConfiguredDevice × List Ev
  | [], _ => ([], [])
  | scan :: rest, current_node_id =>
    let pre : List Ev := [Ev.lssSwitchGlobal true, Ev.sleep, Ev.lssFastScan]
    match scan with
    | none => ([], pre)
    | some d =>
      let (recs, tr) := lss_scan_and_configure_nodes rest (current_node_id + 1)
      (⟨d, current_node_id⟩ :: recs,
       pre ++ [Ev.lssConfigureNodeId current_node_id, Ev.lssStoreConfiguration]
           ++ tr)

/-- The record list the scan loop is expected to build: device `i` of the
scan order gets node id `first + i`. -/
def expectedRecords : List DeviceInfo → Nat → List ConfiguredDevice
  | [], _ => []
  | d :: ds, n => ⟨d, n⟩ :: expectedRecords ds (n + 1)

/-- `lss_unconfigure_all_nodes(network)` (`examples/common/utils.py:452`).
`configureResult` / `storeResult` are the outcomes of the
`configure_node_id(0xFF)` and `store_configuration()` calls (`none` =
returned normally, `some e` = raised `e`).  A raised `LssError` from
`configure_node_id` is caught and turns into the `False` return; any other
exception propagates; a `store_configuration` failure of any class is
caught and only logged.  The `finally` block always switches all nodes back
to the LSS waiting state, issues NMT `RESET COMMUNICATION` and sleeps. -/
def lss_unconfigure_all_nodes (configureResult storeResult : Option PyErr) :
    List Ev × Except PyErr Bool :=
  let opened : List Ev := [Ev.lssSwitchGlobal false, Ev.lssConfigureNodeId 0xFF]
  let finallyTr : List Ev :=
    [Ev.lssSwitchGlobal true, Ev.nmt .resetCommunication, Ev.sleep]
  match configureResult with
  | some e =>
    if e.isLss then (opened ++ finallyTr, .ok false)
    else (opened ++ finallyTr, .error e)
  | none =>
    match storeResult with
    | some _ => (opened ++ [Ev.lssStoreConfiguration] ++ finallyTr, .ok true)
    | none => (opened ++ [Ev.lssStoreConfiguration] ++ finallyTr, .ok true)

/-- The environment of one `lss_configure_single_node_id` run: the outcome
of each collaborator call the function makes, in source order. -/
structure LssSingleEnv where
  identityResult : Except PyErr (Nat × Nat × Nat × Nat)
  selectiveResult : Option PyErr
  inquireResult : Except PyErr Nat
  configureResult : Option PyErr
  storeResult : Option PyErr

/-- `lss_configure_single_node_id(network, node_id, new_node_id)`
(`examples/common/utils.py:574`), as its trace and integer status code.
The SDO identity read happens first (failure → status 2); the global
switch to the LSS waiting state is attempted with failures only logged;
`send_switch_state_selective` failure → status 2; `inquire_node_id`
failure → status 2; a reported id different from `node_id` → status 3
with no further LSS call; otherwise `configure_node_id(new_node_id)` then
`store_configuration()` (failure of either → status 1), with a `finally`
that switches back to the waiting state (its own errors swallowed); then
NMT `"RESET"` (failures only logged) and a settle sleep → status 0. -/
def lss_configure_single_node_id (env : LssSingleEnv)
    (node_id new_node_id : Nat) : List Ev × Nat :=
  match env.identityResult with
  | .error _ => ([Ev.sdoReadIdentity], 2)
  | .ok (vid, pid, rev, ser) =>
    let tr2 := [Ev.sdoReadIdentity, Ev.lssSwitchGlobal true,
                Ev.lssSwitchSelective vid pid rev ser]
    match env.selectiveResult with
    | some _ => (tr2, 2)
    | none =>
      let tr3 := tr2 ++ [Ev.lssInquireNodeId]
      match env.inquireResult with
      | .error _ => (tr3, 2)
      | .ok current_id =>
        if current_id ≠ node_id then (tr3, 3)
        else
          let tr4 := tr3 ++ [Ev.lssConfigureNodeId new_node_id]
          match env.configureResult with
          | some _ => (tr4 ++ [Ev.lssSwitchGlobal true], 1)
          | none =>
            let tr5 := tr4 ++ [Ev.lssStoreConfiguration]
            match env.storeResult with
            | some _ => (tr5 ++ [Ev.lssSwitchGlobal true], 1)
            | none =>
              (tr5 ++ [Ev.lssSwitchGlobal true, Ev.nmt .reset, Ev.sleep], 0)

/-- Drop the events up to and including the first controlword write. -/
def dropThroughCw : List Ev → List Ev
  | [] => []
  | Ev.cwWrite _ :: rest => rest
  | _ :: rest => dropThroughCw rest

/-- The events strictly before the next controlword write. -/
def takeToCw : List Ev → List Ev
  | [] => []
  | Ev.cwWrite _ :: _ => []
  | e :: rest => e :: takeToCw rest

/-- The events strictly between the first and second controlword writes. -/
def betweenCw12 (tr : List Ev) : List Ev := takeToCw (dropThroughCw tr)

/-- The events strictly between the second and third controlword writes. -/
def betweenCw23 (tr : List Ev) : List Ev :=
  takeToCw (dropThroughCw (dropThroughCw tr))

/-- The events after the third controlword write. -/
def afterCw3 (tr : List Ev) : List Ev :=
  dropThroughCw (dropThroughCw (dropThroughCw tr))

/-- The handshake shape claim C3 states, following the spec's words
(compare with the traces built from the source): the controlword writes
are exactly `[base, base|BIT4, base]`, a statusword-bit-12-set wait stands
strictly between the first and second writes, and a bit-12-cleared wait
strictly between the second and third writes. -/
def spec_handshake_property (tr : List Ev) (base : Nat) : Prop :=
  cwWrites tr = [base, base ||| BIT 4, base]
  ∧ Ev.waitFlags (BIT 12) true ∈ betweenCw12 tr
  ∧ Ev.waitFlags (BIT 12) false ∈ betweenCw23 tr

instance (tr : List Ev) (base : Nat) :
    Decidable (spec_handshake_property tr base) := by
  unfold spec_handshake_property
  infer_instance


theorem pyClearBits_eq_ldiff (cw m : Nat) :
    pyClearBits cw m = Nat.ldiff cw m := by
  apply Nat.eq_of_testBit_eq
  intro i
  simp only [pyClearBits, Nat.testBit_xor, Nat.testBit_land, Nat.testBit_ldiff]
  cases cw.testBit i <;> cases m.testBit i <;> rfl

/-- Claim C10: calling `set_controlword` with `controlword=None` performs
no RPDO write and no transmit, and calling `set_target_position` with both
`target_position=None` and `profile_velocity=None` performs no RPDO write
and no transmit: the outgoing PDO state is left completely unchanged. -/
theorem none_arguments_are_noops (s : RpdoState) :
    set_controlword s none = s ∧ set_target_position s none none = s :=
  ⟨rfl, rfl⟩

/-- Claim C4: in the homing sequencer, bit 4 of the final controlword write
is always 0, on both the success path and the failure path: after the
homing-attained wait either succeeds or raises, the sequencer writes the
controlword `0x0F` (bit 4 cleared) before returning or before propagating
`RuntimeError("Homing failed")`. -/
theorem homing_final_controlword_clears_bit4 (nodeId : Nat)
    (direction_positive : Bool) (offset : Option Int) (homingWaitOk : Bool) :
    (cwWrites (homing nodeId direction_positive offset homingWaitOk).1).getLast?
      = some 0x0F
    ∧ 0x0F &&& BIT 4 = 0 := by
  cases homingWaitOk <;> cases offset <;> cases direction_positive <;>
    exact ⟨rfl, rfl⟩

/-- Claim C6: when `configure_node_id` raises (`LssError`, the class the
LSS collaborator raises, e.g. on an id collision) inside
`lss_unconfigure_all_nodes`, the function returns `False` instead of
propagating, and its trace still ends with the `finally` cleanup:
switch-state-global(waiting) followed by NMT reset-communication. -/
theorem lss_unconfigure_cleanup_on_lss_error (storeResult : Option PyErr) :
    (lss_unconfigure_all_nodes (some .lssError) storeResult).2 = .ok false
    ∧ (lss_unconfigure_all_nodes (some .lssError) storeResult).1
        = [Ev.lssSwitchGlobal false, Ev.lssConfigureNodeId 0xFF,
           Ev.lssSwitchGlobal true, Ev.nmt .resetCommunication, Ev.sleep] :=
  ⟨rfl, rfl⟩

/-- Claim C3 is false on the code: in both `send_position_command` and
`position_mode_normal` there is no statusword wait at all between the
first and second controlword writes (only the target write stands there),
so the claimed handshake shape fails at the concrete inputs
`target_pos = 1000` and `(target, velocity) = (10000, 50000)`. -/
theorem profile_position_handshake_claim_false :
    ¬ spec_handshake_property (send_position_command 1000) 0x0F
    ∧ ¬ spec_handshake_property (position_mode_normal 10000 50000) 0x0F := by
  constructor <;> decide

/-- Claim C3 as amended: for every target (and velocity), the controlword
writes are exactly `[base, base|BIT4, base]` with `base = 0x0F`; between
the first and second writes stands only the target write (no statusword
wait); the bit-12-set wait stands between the second and third writes; the
bit-12-cleared wait, where present (`position_mode_normal`), follows the
third write; `send_position_command` omits it and waits for bit 10
(target reached) after the third write instead. -/
theorem profile_position_handshake_amended (target vel : Int) :
    (cwWrites (send_position_command target) = [0x0F, 0x0F ||| BIT 4, 0x0F]
      ∧ betweenCw12 (send_position_command target)
          = [Ev.setTarget (some target) none]
      ∧ betweenCw23 (send_position_command target)
          = [Ev.waitFlags (BIT 12) true]
      ∧ afterCw3 (send_position_command target)
          = [Ev.waitFlags (BIT 10) true, Ev.getActualPos])
    ∧ (cwWrites (position_mode_normal target vel)
          = [0x0F, 0x0F ||| BIT 4, 0x0F]
      ∧ betweenCw12 (position_mode_normal target vel)
          = [Ev.setTarget (some target) (some vel)]
      ∧ betweenCw23 (position_mode_normal target vel)
          = [Ev.waitFlags (BIT 12) true]
      ∧ afterCw3 (position_mode_normal target vel)
          = [Ev.waitFlags (BIT 12) false, Ev.waitFlags (BIT 10) true,
             Ev.sdoRead .positionActualValue] ++ cleanup_profile_position) :=
  ⟨⟨rfl, rfl, rfl, rfl⟩, rfl, rfl, rfl, rfl⟩

/-- Claim C5: for every sequence of fast-scan results yielding devices
`devs` followed by `(found=False)`, `lss_scan_and_configure_nodes` returns
one configured-device record per device, the `i`-th assigned node id
`first_node_id + i`, and performs exactly one configure + store cycle per
device; in particular for two devices and `first_node_id = 32` it returns
the records `[{D1, 32}, {D2, 33}]` with exactly 2 cycles. -/
theorem lss_scan_assigns_sequential_ids (devs : List DeviceInfo)
    (first_node_id : Nat) :
    ((lss_scan_and_configure_nodes (devs.map some ++ [none]) first_node_id).1
        = expectedRecords devs first_node_id
      ∧ configureCount
          (lss_scan_and_configure_nodes (devs.map some ++ [none])
            first_node_id).2 = devs.length
      ∧ storeCount
          (lss_scan_and_configure_nodes (devs.map some ++ [none])
            first_node_id).2 = devs.length)
    ∧ (lss_scan_and_configure_nodes
          [some ⟨1, 2, 3, 4⟩, some ⟨5, 6, 7, 8⟩, none] 32).1
        = [⟨⟨1, 2, 3, 4⟩, 32⟩, ⟨⟨5, 6, 7, 8⟩, 33⟩]
    ∧ configureCount (lss_scan_and_configure_nodes
          [some ⟨1, 2, 3, 4⟩, some ⟨5, 6, 7, 8⟩, none] 32).2 = 2
    ∧ storeCount (lss_scan_and_configure_nodes
          [some ⟨1, 2, 3, 4⟩, some ⟨5, 6, 7, 8⟩, none] 32).2 = 2 := by
  refine ⟨?_, rfl, rfl, rfl⟩
  induction devs generalizing first_node_id with
  | nil => exact ⟨rfl, rfl, rfl⟩
  | cons d ds ih =>
    obtain ⟨h1, h2, h3⟩ := ih (first_node_id + 1)
    refine ⟨?_, ?_, ?_⟩
    · simpa [lss_scan_and_configure_nodes, expectedRecords] using h1
    · simpa [lss_scan_and_configure_nodes, configureCount,
        List.countP_append] using h2
    · simpa [lss_scan_and_configure_nodes, storeCount,
        List.countP_append] using h3

/-- Claim C1: whenever the SDO identity read and the LSS selective switch
succeed and `inquire_node_id` reports an id different from the expected
`node_id`, `lss_configure_single_node_id` returns status code 3 and its
trace holds no `configure_node_id` and no `store_configuration` call: no
change is applied to any device. -/
theorem lss_configure_single_safety_gate (env : LssSingleEnv)
    (node_id new_node_id reported vid pid rev ser : Nat)
    (hid : env.identityResult = .ok (vid, pid, rev, ser))
    (hsel : env.selectiveResult = none)
    (hinq : env.inquireResult = .ok reported)
    (hne : reported ≠ node_id) :
    (lss_configure_single_node_id env node_id new_node_id).2 = 3
    ∧ ∀ e ∈ (lss_configure_single_node_id env node_id new_node_id).1,
        (∀ i, e ≠ Ev.lssConfigureNodeId i) ∧ e ≠ Ev.lssStoreConfiguration := by
  unfold lss_configure_single_node_id
  rw [hid, hsel, hinq]
  dsimp only
  rw [if_pos hne]
  refine ⟨rfl, ?_⟩
  intro e he
  simp only [List.mem_append, List.mem_cons, List.not_mem_nil, or_false,
    List.mem_singleton] at he
  rcases he with (rfl | rfl | rfl) | rfl <;>
    exact ⟨fun i h => (nomatch h), fun h => nomatch h⟩

theorem lss_configure_single_safety_gate_witness :
    (lss_configure_single_node_id
        ⟨.ok (1, 2, 3, 4), none, .ok 5, none, none⟩ 7 9).2 = 3
    ∧ ∀ e ∈ (lss_configure_single_node_id
        ⟨.ok (1, 2, 3, 4), none, .ok 5, none, none⟩ 7 9).1,
        (∀ i, e ≠ Ev.lssConfigureNodeId i) ∧ e ≠ Ev.lssStoreConfiguration :=
  lss_configure_single_safety_gate ⟨.ok (1, 2, 3, 4), none, .ok 5, none, none⟩
    7 9 5 1 2 3 4 rfl rfl rfl (by decide)

/-- Claim C9 is false on the code: when the homing-attained wait fails,
the error the homing sequencer raises is the generic
`RuntimeError("Homing failed")`; its constant message names no node id
(running the sequencer on node 1 and on node 2 raises the very same error
value), so the failure does not carry the node identifier or the awaited
condition. -/
theorem homing_error_lacks_node_id :
    (homing 1 true none false).2 = .error .runtimeHomingFailed
    ∧ PyErr.errNode .runtimeHomingFailed = none
    ∧ (homing 1 true none false).2 = (homing 2 true none false).2 :=
  ⟨rfl, rfl, rfl⟩

theorem wfsfGo_ok_iff (nodeId flags : Nat) (expected_flag_state : Bool)
    (time_interval timeout : Nat) :
    ∀ (reads : List Nat) (elapsed count : Nat),
      (∃ k, wfsfGo nodeId flags expected_flag_state time_interval timeout
          reads elapsed count = .ok k)
        ↔ ∃ i, ∃ h : i < reads.length,
            elapsed + i * time_interval < timeout
            ∧ flag_match flags expected_flag_state (reads.get ⟨i, h⟩) = true := by
  intro reads
  induction reads with
  | nil =>
    intro elapsed count
    constructor
    · rintro ⟨k, hk⟩
      simp [wfsfGo] at hk
    · rintro ⟨i, h, _⟩
      exact absurd h (Nat.not_lt_zero i)
  | cons sw rest ih =>
    intro elapsed count
    by_cases htime : elapsed < timeout
    · by_cases hm : flag_match flags expected_flag_state sw = true
      · constructor
        · intro _
          exact ⟨0, Nat.succ_pos _, by simpa using htime, hm⟩
        · intro _
          exact ⟨count + 1, by simp [wfsfGo, htime, hm]⟩
      · have hstep :
            wfsfGo nodeId flags expected_flag_state time_interval timeout
              (sw :: rest) elapsed count
            = wfsfGo nodeId flags expected_flag_state time_interval timeout
              rest (elapsed + time_interval) (count + 1) := by
          simp [wfsfGo, htime, hm]
        rw [hstep, ih]
        constructor
        · rintro ⟨i, h, hlt, hmi⟩
          refine ⟨i + 1, Nat.succ_lt_succ h, ?_, hmi⟩
          have harith : elapsed + time_interval + i * time_interval
              = elapsed + (i + 1) * time_interval := by ring
          rwa [harith] at hlt
        · rintro ⟨i, h, hlt, hmi⟩
          cases i with
          | zero => exact absurd hmi hm
          | succ j =>
            refine ⟨j, Nat.lt_of_succ_lt_succ h, ?_, hmi⟩
            have harith : elapsed + (j + 1) * time_interval
                = elapsed + time_interval + j * time_interval := by ring
            rwa [harith] at hlt
    · constructor
      · rintro ⟨k, hk⟩
        simp [wfsfGo, htime] at hk
      · rintro ⟨i, h, hlt, _⟩
        have hge : timeout ≤ elapsed + i * time_interval :=
          le_trans (Nat.le_of_not_lt htime) (Nat.le_add_right _ _)
        exact absurd hlt (Nat.not_lt.mpr hge)

theorem wfsfGo_error_eq (nodeId flags : Nat) (expected_flag_state : Bool)
    (time_interval timeout : Nat) :
    ∀ (reads : List Nat) (elapsed count : Nat) (e : PyErr),
      wfsfGo nodeId flags expected_flag_state time_interval timeout
          reads elapsed count = .error e
        → e = .timeoutFlags nodeId flags expected_flag_state := by
  intro reads
  induction reads with
  | nil =>
    intro elapsed count e he
    simpa [wfsfGo, eq_comm] using he
  | cons sw rest ih =>
    intro elapsed count e he
    by_cases htime : elapsed < timeout
    · by_cases hm : flag_match flags expected_flag_state sw = true
      · simp [wfsfGo, htime, hm] at he
      · rw [show wfsfGo nodeId flags expected_flag_state time_interval timeout
            (sw :: rest) elapsed count
            = wfsfGo nodeId flags expected_flag_state time_interval timeout
              rest (elapsed + time_interval) (count + 1) from by
            simp [wfsfGo, htime, hm]] at he
        exact ih (elapsed + time_interval) (count + 1) e he
    · simpa [wfsfGo, htime, eq_comm] using he

/-- Claim C2: `wait_for_statusword_flags` returns successfully exactly when
some polled statusword read `S` (one that occurs before the timeout)
satisfies `(S & mask) == mask` when `expected_flag_state` is true, else
`(S & mask) == 0`; in particular, for the read sequence
`[0x0000, 0x0000, 0x1000]` with mask `0x1000`, `expected_flag_state=True`
and poll interval 0, it returns successfully after exactly 3 reads
(for any positive timeout `T`). -/
theorem wait_for_statusword_flags_success_iff (nodeId : Nat)
    (reads : List Nat) (flags : Nat) (expected_flag_state : Bool)
    (time_interval timeout T : Nat) (hT : 0 < T) :
    ((∃ k, wait_for_statusword_flags nodeId reads flags expected_flag_state
          time_interval timeout = .ok k)
      ↔ ∃ i, ∃ h : i < reads.length,
          i * time_interval < timeout
          ∧ flag_match flags expected_flag_state (reads.get ⟨i, h⟩) = true)
    ∧ wait_for_statusword_flags nodeId [0x0000, 0x0000, 0x1000] 0x1000
        true 0 T = .ok 3 := by
  constructor
  · have h := wfsfGo_ok_iff nodeId flags expected_flag_state time_interval
      timeout reads 0 0
    simpa using h
  · have e1 : flag_match 0x1000 true 0x0000 = false := rfl
    have e2 : flag_match 0x1000 true 0x1000 = true := rfl
    simp [wait_for_statusword_flags, wfsfGo, e1, e2, hT]

theorem wait_for_statusword_flags_success_iff_witness :
    ((∃ k, wait_for_statusword_flags 1 [0x0000, 0x0000, 0x1000] 0x1000 true
          0 1 = .ok k)
      ↔ ∃ i, ∃ h : i < ([0x0000, 0x0000, 0x1000] : List Nat).length,
          i * 0 < 1
          ∧ flag_match 0x1000 true
              (([0x0000, 0x0000, 0x1000] : List Nat).get ⟨i, h⟩) = true)
    ∧ wait_for_statusword_flags 1 [0x0000, 0x0000, 0x1000] 0x1000 true 0 1
        = .ok 3 :=
  wait_for_statusword_flags_success_iff 1 [0x0000, 0x0000, 0x1000] 0x1000
    true 0 1 1 (by decide)

theorem snsGo_ok_iff (nodeId : Nat) (target : NodeState) (timeout : Nat) :
    ∀ (reads : List NodeState) (elapsed : Nat),
      snsGo nodeId target timeout reads elapsed = .ok ()
        ↔ ∃ i, ∃ h : i < reads.length,
            elapsed + i < timeout ∧ reads.get ⟨i, h⟩ = target := by
  intro reads
  induction reads with
  | nil =>
    intro elapsed
    constructor
    · intro hk
      simp [snsGo] at hk
    · rintro ⟨i, h, _⟩
      exact absurd h (Nat.not_lt_zero i)
  | cons s rest ih =>
    intro elapsed
    by_cases htime : elapsed < timeout
    · by_cases hm : s = target
      · constructor
        · intro _
          exact ⟨0, Nat.succ_pos _, by simpa using htime, hm⟩
        · intro _
          simp [snsGo, htime, hm]
      · have hstep : snsGo nodeId target timeout (s :: rest) elapsed
            = snsGo nodeId target timeout rest (elapsed + 1) := by
          simp [snsGo, htime, hm]
        rw [hstep, ih]
        constructor
        · rintro ⟨i, h, hlt, hmi⟩
          exact ⟨i + 1, Nat.succ_lt_succ h, by omega, hmi⟩
        · rintro ⟨i, h, hlt, hmi⟩
          cases i with
          | zero => exact absurd hmi hm
          | succ j =>
            exact ⟨j, Nat.lt_of_succ_lt_succ h, by omega, hmi⟩
    · constructor
      · intro hk
        simp [snsGo, htime] at hk
      · rintro ⟨i, h, hlt, _⟩
        exact absurd hlt (by omega)

theorem snsGo_ok_or_error (nodeId : Nat) (target : NodeState) (timeout : Nat) :
    ∀ (reads : List NodeState) (elapsed : Nat),
      snsGo nodeId target timeout reads elapsed = .ok ()
        ∨ snsGo nodeId target timeout reads elapsed
            = .error (.timeoutState nodeId target) := by
  intro reads
  induction reads with
  | nil =>
    intro elapsed
    exact .inr rfl
  | cons s rest ih =>
    intro elapsed
    by_cases htime : elapsed < timeout
    · by_cases hm : s = target
      · exact .inl (by simp [snsGo, htime, hm])
      · have hstep : snsGo nodeId target timeout (s :: rest) elapsed
            = snsGo nodeId target timeout rest (elapsed + 1) := by
          simp [snsGo, htime, hm]
        rw [hstep]
        exact ih (elapsed + 1)
    · exact .inr (by simp [snsGo, htime])

/-- Claim C7: `set_node_state` returns normally exactly when one of the
polled reads of the device's reported state (a read that occurs within the
timeout window, counted in the loop's 100 ms poll units) equals the
requested state — the state-token write alone is never treated as
commitment — and every abnormal return is the `TimeoutError` identifying
the node and the target state. -/
theorem set_node_state_confirms_by_read (nodeId : Nat) (target : NodeState)
    (reads : List NodeState) (timeout : Nat) :
    (set_node_state nodeId target reads timeout = .ok ()
      ↔ ∃ i, ∃ h : i < reads.length,
          i < timeout ∧ reads.get ⟨i, h⟩ = target)
    ∧ (set_node_state nodeId target reads timeout = .ok ()
        ∨ set_node_state nodeId target reads timeout
            = .error (.timeoutState nodeId target)) := by
  constructor
  · have h := snsGo_ok_iff nodeId target timeout reads 0
    simpa using h
  · exact snsGo_ok_or_error nodeId target timeout reads 0

theorem snomGo_trace_reads_only (nodeId : Nat) (mode : NodeOperationMode)
    (timeout : Nat) :
    ∀ (reads : List Int) (elapsed : Nat),
      ∀ g ∈ (snomGo nodeId mode timeout reads elapsed).1,
        g = Ev.sdoRead .modeOfOperation := by
  intro reads
  induction reads with
  | nil =>
    intro elapsed g hg
    simp [snomGo] at hg
  | cons v rest ih =>
    intro elapsed g hg
    by_cases htime : elapsed < timeout
    · by_cases hm : v = mode.val
      · simpa [snomGo, htime, hm] using hg
      · simp only [snomGo, if_pos htime, if_neg hm, List.mem_cons] at hg
        rcases hg with rfl | hg
        · rfl
        · exact ih (elapsed + 1) g hg
    · simp [snomGo, htime] at hg

theorem snomGo_ok_iff (nodeId : Nat) (mode : NodeOperationMode)
    (timeout : Nat) :
    ∀ (reads : List Int) (elapsed : Nat),
      (snomGo nodeId mode timeout reads elapsed).2 = .ok ()
        ↔ ∃ i, ∃ h : i < reads.length,
            elapsed + i < timeout ∧ reads.get ⟨i, h⟩ = mode.val := by
  intro reads
  induction reads with
  | nil =>
    intro elapsed
    constructor
    · intro hk
      simp [snomGo] at hk
    · rintro ⟨i, h, _⟩
      exact absurd h (Nat.not_lt_zero i)
  | cons v rest ih =>
    intro elapsed
    by_cases htime : elapsed < timeout
    · by_cases hm : v = mode.val
      · constructor
        · intro _
          exact ⟨0, Nat.succ_pos _, by simpa using htime, hm⟩
        · intro _
          simp [snomGo, htime, hm]
      · have hstep : (snomGo nodeId mode timeout (v :: rest) elapsed).2
            = (snomGo nodeId mode timeout rest (elapsed + 1)).2 := by
          simp [snomGo, htime, hm]
        rw [hstep, ih]
        constructor
        · rintro ⟨i, h, hlt, hmi⟩
          exact ⟨i + 1, Nat.succ_lt_succ h, by omega, hmi⟩
        · rintro ⟨i, h, hlt, hmi⟩
          cases i with
          | zero => exact absurd hmi hm
          | succ j =>
            exact ⟨j, Nat.lt_of_succ_lt_succ h, by omega, hmi⟩
    · constructor
      · intro hk
        simp [snomGo, htime] at hk
      · rintro ⟨i, h, hlt, _⟩
        exact absurd hlt (by omega)

theorem snomGo_ok_or_error (nodeId : Nat) (mode : NodeOperationMode)
    (timeout : Nat) :
    ∀ (reads : List Int) (elapsed : Nat),
      (snomGo nodeId mode timeout reads elapsed).2 = .ok ()
        ∨ (snomGo nodeId mode timeout reads elapsed).2
            = .error (.timeoutMode nodeId mode) := by
  intro reads
  induction reads with
  | nil =>
    intro elapsed
    exact .inr rfl
  | cons v rest ih =>
    intro elapsed
    by_cases htime : elapsed < timeout
    · by_cases hm : v = mode.val
      · exact .inl (by simp [snomGo, htime, hm])
      · have hstep : (snomGo nodeId mode timeout (v :: rest) elapsed).2
            = (snomGo nodeId mode timeout rest (elapsed + 1)).2 := by
          simp [snomGo, htime, hm]
        rw [hstep]
        exact ih (elapsed + 1)
    · exact .inr (by simp [snomGo, htime])

/-- Claim C8: `set_node_operation_mode` performs exactly one SDO write —
of `mode.value` to the mode-select register `"Mode of operation"` (0x6060)
— and every other action of its trace is a poll (an SDO read) of that same
mode-select register, not of the mode-display register; it returns
normally exactly when one of the polled reads (within the timeout window,
in the loop's 100 ms units) echoes the requested value, and every abnormal
return is the `TimeoutError` identifying the node and the mode. -/
theorem set_node_operation_mode_single_write_echo (nodeId : Nat)
    (mode : NodeOperationMode) (reads : List Int) (timeout : Nat) :
    sdoWritesOf (set_node_operation_mode nodeId mode reads timeout).1
      = [(Reg.modeOfOperation, mode.val)]
    ∧ (∀ e ∈ (set_node_operation_mode nodeId mode reads timeout).1,
        e = Ev.sdoWrite .modeOfOperation mode.val
          ∨ e = Ev.sdoRead .modeOfOperation)
    ∧ ((set_node_operation_mode nodeId mode reads timeout).2 = .ok ()
        ↔ ∃ i, ∃ h : i < reads.length,
            i < timeout ∧ reads.get ⟨i, h⟩ = mode.val)
    ∧ ((set_node_operation_mode nodeId mode reads timeout).2 = .ok ()
        ∨ (set_node_operation_mode nodeId mode reads timeout).2
            = .error (.timeoutMode nodeId mode)) := by
  have htrace := snomGo_trace_reads_only nodeId mode timeout reads 0
  refine ⟨?_, ?_, ?_, ?_⟩
  · have hnil : sdoWritesOf (snomGo nodeId mode timeout reads 0).1 = [] := by
      rw [sdoWritesOf, List.filterMap_eq_nil_iff]
      intro a ha
      rw [htrace a ha]
    simp only [set_node_operation_mode, sdoWritesOf, List.filterMap_cons]
    rw [sdoWritesOf] at hnil
    simp [hnil]
  · intro e he
    simp only [set_node_operation_mode, List.mem_cons] at he
    rcases he with rfl | he
    · exact .inl rfl
    · exact .inr (htrace e he)
  · have h := snomGo_ok_iff nodeId mode timeout reads 0
    simpa [set_node_operation_mode] using h
  · have h := snomGo_ok_or_error nodeId mode timeout reads 0
    simpa [set_node_operation_mode] using h

/-- Claim C9 as amended: every failure the statusword watcher, the
state-machine driver or the operation-mode selector raises is the exact
`TimeoutError` carrying both the node identifier and the awaited
condition — `timeoutFlags nodeId flags expected_flag_state` for the
watcher, `timeoutState nodeId target` for the driver, and
`timeoutMode nodeId mode` for the selector; the homing sequencer, however,
logs that informative `TimeoutError` and raises the generic
`RuntimeError("Homing failed")` in its place, a constant error value that
names neither the node nor the condition. -/
theorem sequencer_error_context_amended (nodeId flags : Nat)
    (expected_flag_state : Bool) (reads : List Nat)
    (stateReads : List NodeState) (modeReads : List Int)
    (time_interval timeout : Nat) (target : NodeState)
    (mode : NodeOperationMode) (direction_positive : Bool)
    (offset : Option Int) :
    (∀ e, wait_for_statusword_flags nodeId reads flags expected_flag_state
        time_interval timeout = .error e
      → e = PyErr.timeoutFlags nodeId flags expected_flag_state)
    ∧ (∀ e, set_node_state nodeId target stateReads timeout = .error e
        → e = PyErr.timeoutState nodeId target)
    ∧ (∀ e, (set_node_operation_mode nodeId mode modeReads timeout).2
          = .error e → e = PyErr.timeoutMode nodeId mode)
    ∧ (homing nodeId direction_positive offset false).2
        = .error .runtimeHomingFailed
    ∧ PyErr.errNode .runtimeHomingFailed = none := by
  refine ⟨?_, ?_, ?_, rfl, rfl⟩
  · intro e he
    exact wfsfGo_error_eq nodeId flags expected_flag_state time_interval
      timeout reads 0 0 e he
  · intro e he
    rcases snsGo_ok_or_error nodeId target timeout stateReads 0 with h | h
    · rw [set_node_state] at he
      rw [he] at h
      exact absurd h (by simp)
    · rw [set_node_state] at he
      rw [he] at h
      injection h with h2
  · intro e he
    rcases snomGo_ok_or_error nodeId mode timeout modeReads 0 with h | h
    · rw [set_node_operation_mode] at he
      simp only at he
      rw [he] at h
      exact absurd h (by simp)
    · rw [set_node_operation_mode] at he
      simp only at he
      rw [he] at h
      injection h with h2
